import Mathlib

/-!
Shallow embedding of `src/pages/PriceManagement.jsx` (repository
Izza3000/fiftypercent): an admin-only React page backed by a relational
store (Supabase) with three tables — `users`, `coffee_prices`,
`coffee_price_history` — and four operations: `checkUser`, `fetchPrices`,
`fetchPriceHistory`, `handleSubmit`.

The store is modelled explicitly; each network round trip appears as a
`DBEvent` in a trace, and every fallible round trip takes an injected
success flag (the store's answer).  Toast notifications and navigation
redirects are recorded as data.
-/

namespace PriceManagement

/-- A row of the `users` table. -/
structure UserRow where
  id : Nat
  role : String
  first_name : String
  last_name : String
deriving Repr, DecidableEq

/-- The authenticated principal returned by `supabase.auth.getUser()`. -/
structure AuthUser where
  id : Nat
deriving Repr, DecidableEq

/-- A row of the `coffee_prices` table.  `price_per_kg` is kept as the raw
string the form submits (the JS object is spread unchanged into the insert). -/
structure PriceRecord where
  price_id : Nat
  coffee_type : String
  price_per_kg : String
  currency : String
  is_active : Bool
  created_by : Nat
  updated_at : Nat
deriving Repr, DecidableEq

/-- A row of the `coffee_price_history` table.  `history_id` and
`change_date` are assigned server-side on insert. -/
structure HistoryEntry where
  history_id : Nat
  price_id : Nat
  coffee_type : String
  old_price : String
  new_price : String
  changed_by : Nat
  change_date : Nat
  reason : String
deriving Repr, DecidableEq

/-- The external relational store, with the server-assigned id counters and
clock made explicit. -/
structure Store where
  users : List UserRow
  coffee_prices : List PriceRecord
  coffee_price_history : List HistoryEntry
  nextPriceId : Nat
  nextHistoryId : Nat
  now : Nat
deriving Repr, DecidableEq

/-- The payload of the `coffee_prices` insert issued by `handleSubmit`:
`{...newPrice, created_by: user.id, is_active: true}`. -/
structure PriceReq where
  coffee_type : String
  price_per_kg : String
  currency : String
  created_by : Nat
  is_active : Bool
deriving Repr, DecidableEq

/-- The payload of the `coffee_price_history` insert issued by
`handleSubmit` (the `historyRecord` object literal). -/
structure HistoryReq where
  price_id : Nat
  coffee_type : String
  old_price : String
  new_price : String
  changed_by : Nat
  reason : String
deriving Repr, DecidableEq

/-- One network round trip to the store, as recorded in a trace. -/
inductive DBEvent where
  | selectUser (uid : Nat)
  | selectActivePrices
  | selectHistory
  | insertPrice (req : PriceReq)
  | deactivatePrice (price_id : Nat)
  | insertHistory (req : HistoryReq)
deriving Repr, DecidableEq

/-- Whether a round trip writes to the store. -/
def DBEvent.isWrite : DBEvent → Bool
  | .insertPrice _ => true
  | .deactivatePrice _ => true
  | .insertHistory _ => true
  | _ => false

/-- A toast notification (`react-hot-toast`). -/
inductive Toast where
  | success (msg : String)
  | error (msg : String)
deriving Repr, DecidableEq

/-- The display name joined onto a fetched row (`first_name`, `last_name`
of the referenced user). -/
structure JoinedName where
  first_name : String
  last_name : String
deriving Repr, DecidableEq

/-- A `coffee_prices` row as fetched by `fetchPrices`, with the
`creator:created_by (first_name, last_name)` join. -/
structure PriceView extends PriceRecord where
  creator : Option JoinedName
deriving Repr, DecidableEq

/-- A `coffee_price_history` row as fetched by `fetchPriceHistory`, with
the `user:changed_by (first_name, last_name)` join. -/
structure HistoryView extends HistoryEntry where
  user : Option JoinedName
deriving Repr, DecidableEq

/-- The form state `newPrice`. -/
structure FormState where
  coffee_type : String
  price_per_kg : String
  currency : String
deriving Repr, DecidableEq

/-- The initial (and reset) value of the form. -/
def defaultForm : FormState :=
  { coffee_type := "raw", price_per_kg := "", currency := "PHP" }

/-- The component's React state. -/
structure ComponentState where
  user : Option UserRow
  priceHistory : List HistoryView
  currentPrices : List PriceView
  loading : Bool
  newPrice : FormState
deriving Repr, DecidableEq

/-- The initial component state (`useState` initialisers). -/
def initialState : ComponentState :=
  { user := none, priceHistory := [], currentPrices := [], loading := true,
    newPrice := defaultForm }

/-! ### Store-side semantics of the issued requests -/

/-- Foreign-key join: the `(first_name, last_name)` of the user with the
given id, if any. -/
def lookupName (s : Store) (uid : Nat) : Option JoinedName :=
  (s.users.find? (fun u => u.id == uid)).map
    (fun u => { first_name := u.first_name, last_name := u.last_name })

/-- The record the server stores (and returns via `.select().single()`)
for a `coffee_prices` insert. -/
def serverPrice (s : Store) (req : PriceReq) : PriceRecord :=
  { price_id := s.nextPriceId, coffee_type := req.coffee_type,
    price_per_kg := req.price_per_kg, currency := req.currency,
    is_active := req.is_active, created_by := req.created_by,
    updated_at := s.now }

/-- Store after a successful `coffee_prices` insert. -/
def insertPriceRow (s : Store) (req : PriceReq) : Store :=
  { s with coffee_prices := s.coffee_prices ++ [serverPrice s req],
           nextPriceId := s.nextPriceId + 1 }

/-- Effect of the deactivation update on one row: the patch applies to the
rows matching the `price_id` filter. -/
def deactivateFn (pid : Nat) (r : PriceRecord) : PriceRecord :=
  if r.price_id == pid then { r with is_active := false } else r

/-- Store after the update `set is_active = false where price_id = pid`. -/
def deactivateRow (s : Store) (pid : Nat) : Store :=
  { s with coffee_prices := s.coffee_prices.map (deactivateFn pid) }

/-- The record the server stores for a `coffee_price_history` insert. -/
def serverHistory (s : Store) (req : HistoryReq) : HistoryEntry :=
  { history_id := s.nextHistoryId, price_id := req.price_id,
    coffee_type := req.coffee_type, old_price := req.old_price,
    new_price := req.new_price, changed_by := req.changed_by,
    change_date := s.now, reason := req.reason }

/-- Store after a successful `coffee_price_history` insert. -/
def insertHistoryRow (s : Store) (req : HistoryReq) : Store :=
  { s with coffee_price_history := s.coffee_price_history ++ [serverHistory s req],
           nextHistoryId := s.nextHistoryId + 1 }

/-- Join a `coffee_prices` row with its creator's name. -/
def joinCreator (s : Store) (r : PriceRecord) : PriceView :=
  { toPriceRecord := r, creator := lookupName s r.created_by }

/-- Join a `coffee_price_history` row with its changer's name. -/
def joinChanger (s : Store) (h : HistoryEntry) : HistoryView :=
  { toHistoryEntry := h, user := lookupName s h.changed_by }

/-- The `ORDER BY coffee_type` requested by `fetchPrices`. -/
def priceOrd (a b : PriceView) : Prop := a.coffee_type ≤ b.coffee_type

instance : DecidableRel priceOrd := fun a b =>
  inferInstanceAs (Decidable (a.coffee_type ≤ b.coffee_type))

instance : IsTotal PriceView priceOrd := ⟨fun a b => le_total a.coffee_type b.coffee_type⟩

instance : IsTrans PriceView priceOrd := ⟨fun _ _ _ hab hbc => le_trans hab hbc⟩

/-- The `ORDER BY change_date DESC` requested by `fetchPriceHistory`. -/
def histOrd (a b : HistoryView) : Prop := b.change_date ≤ a.change_date

instance : DecidableRel histOrd := fun a b =>
  inferInstanceAs (Decidable (b.change_date ≤ a.change_date))

instance : IsTotal HistoryView histOrd := ⟨fun a b => le_total b.change_date a.change_date⟩

instance : IsTrans HistoryView histOrd := ⟨fun _ _ _ hab hbc => le_trans hbc hab⟩

/-- Result set of the `fetchPrices` query: active rows, creator joined,
ordered by `coffee_type` ascending. -/
def activePricesQuery (s : Store) : List PriceView :=
  List.insertionSort priceOrd
    ((s.coffee_prices.filter (fun r => r.is_active)).map (joinCreator s))

/-- Result set of the `fetchPriceHistory` query: all rows, changer joined,
ordered by `change_date` descending. -/
def historyQuery (s : Store) : List HistoryView :=
  List.insertionSort histOrd (s.coffee_price_history.map (joinChanger s))

/-! ### The four component operations -/

/-- Outcome of one operation: the state after it, the round trips it
issued, the toasts it raised, and any navigation redirect. -/
structure OpResult where
  state : ComponentState
  store : Store
  events : List DBEvent
  toasts : List Toast
  nav : Option String
deriving Repr, DecidableEq

/-- `checkUser` (lines 38–64).  `principal` is what
`supabase.auth.getUser()` returns; `lookupOk` injects a network failure of
the `users` select.  A missing row makes `.single()` error, which the
`catch` turns into a toast (no redirect). -/
def checkUser (st : ComponentState) (s : Store) (principal : Option AuthUser)
    (lookupOk : Bool) : OpResult :=
  match principal with
  | none =>
      { state := st, store := s, events := [], toasts := [], nav := some "/login" }
  | some a =>
      let row := if lookupOk then s.users.find? (fun u => u.id == a.id) else none
      match row with
      | none =>
          { state := st, store := s, events := [DBEvent.selectUser a.id],
            toasts := [Toast.error "Error checking user permissions"], nav := none }
      | some data =>
          if data.role ≠ "admin" then
            { state := st, store := s, events := [DBEvent.selectUser a.id],
              toasts := [Toast.error "Admin access required"], nav := some "/dashboard" }
          else
            { state := { st with user := some data }, store := s,
              events := [DBEvent.selectUser a.id], toasts := [], nav := none }

/-- `fetchPrices` (lines 66–86).  On success the fetched list replaces
`currentPrices`; on failure an error toast is raised and the state is left
as it was.  The loading flag is not touched on either path. -/
def fetchPrices (st : ComponentState) (s : Store) (ok : Bool) : OpResult :=
  if ok then
    { state := { st with currentPrices := activePricesQuery s }, store := s,
      events := [DBEvent.selectActivePrices], toasts := [], nav := none }
  else
    { state := st, store := s, events := [DBEvent.selectActivePrices],
      toasts := [Toast.error "Failed to fetch current prices"], nav := none }

/-- `fetchPriceHistory` (lines 88–115).  Like `fetchPrices`, but its
`finally` clears the loading flag on both paths. -/
def fetchPriceHistory (st : ComponentState) (s : Store) (ok : Bool) : OpResult :=
  if ok then
    { state := { st with priceHistory := historyQuery s, loading := false },
      store := s, events := [DBEvent.selectHistory], toasts := [], nav := none }
  else
    { state := { st with loading := false }, store := s,
      events := [DBEvent.selectHistory],
      toasts := [Toast.error "Failed to fetch price history"], nav := none }

/-- The `coffee_prices` insert payload built by `handleSubmit`:
`{...newPrice, created_by: user.id, is_active: true}`. -/
def priceReqOf (f : FormState) (uid : Nat) : PriceReq :=
  { coffee_type := f.coffee_type, price_per_kg := f.price_per_kg,
    currency := f.currency, created_by := uid, is_active := true }

/-- The `historyRecord` object literal built by `handleSubmit` (lines
160–167). -/
def historyReqOf (newPriceId : Nat) (f : FormState) (oldPrice : String)
    (uid : Nat) : HistoryReq :=
  { price_id := newPriceId, coffee_type := f.coffee_type, old_price := oldPrice,
    new_price := f.price_per_kg, changed_by := uid, reason := "Price update" }

/-- Injected outcomes for the round trips `handleSubmit` can issue: the
three writes and the two refresh reads. -/
structure SubmitOutcome where
  insertOk : Bool
  updateOk : Bool
  historyOk : Bool
  refreshPricesOk : Bool
  refreshHistoryOk : Bool
deriving Repr, DecidableEq

/-- The tail of `handleSubmit`'s `try` block after all writes succeeded:
success toast, form reset, `await fetchPrices()`, `await
fetchPriceHistory()`; then the `finally` clears the loading flag. -/
def submitSuccessTail (st : ComponentState) (s : Store) (evs : List DBEvent)
    (oc : SubmitOutcome) : OpResult :=
  let st1 := { st with newPrice := defaultForm }
  let r1 := fetchPrices st1 s oc.refreshPricesOk
  let r2 := fetchPriceHistory r1.state s oc.refreshHistoryOk
  { state := { r2.state with loading := false }, store := s,
    events := evs ++ r1.events ++ r2.events,
    toasts := [Toast.success "Price updated successfully"] ++ r1.toasts ++ r2.toasts,
    nav := none }

/-- `handleSubmit` (lines 117–199).  When `user` is `null`, evaluating
`user.id` in the insert payload throws before the insert is issued; the
`catch`/`finally` then toast the generic failure and clear the loading
flag.  Otherwise the writes run in order — insert new price, and when a
prior entry for the type is in the loaded `currentPrices`, deactivate it
and insert the history record — each aborting to the `catch` on failure. -/
def handleSubmit (st : ComponentState) (s : Store) (oc : SubmitOutcome) : OpResult :=
  match st.user with
  | none =>
      { state := { st with loading := false }, store := s, events := [],
        toasts := [Toast.error "Failed to update price"], nav := none }
  | some u =>
      let currentPrice :=
        st.currentPrices.find? (fun p => p.coffee_type == st.newPrice.coffee_type)
      let req : PriceReq := priceReqOf st.newPrice u.id
      if oc.insertOk = false then
        { state := { st with loading := false }, store := s,
          events := [DBEvent.insertPrice req],
          toasts := [Toast.error "Failed to update price"], nav := none }
      else
        let insertedPrice := serverPrice s req
        let s1 := insertPriceRow s req
        match currentPrice with
        | none =>
            submitSuccessTail st s1 [DBEvent.insertPrice req] oc
        | some cur =>
            if oc.updateOk = false then
              { state := { st with loading := false }, store := s1,
                events := [DBEvent.insertPrice req, DBEvent.deactivatePrice cur.price_id],
                toasts := [Toast.error "Failed to update price"], nav := none }
            else
              let s2 := deactivateRow s1 cur.price_id
              let hreq : HistoryReq :=
                historyReqOf insertedPrice.price_id st.newPrice cur.price_per_kg u.id
              if oc.historyOk = false then
                { state := { st with loading := false }, store := s2,
                  events := [DBEvent.insertPrice req, DBEvent.deactivatePrice cur.price_id,
                             DBEvent.insertHistory hreq],
                  toasts := [Toast.error "Failed to update price"], nav := none }
              else
                let s3 := insertHistoryRow s2 hreq
                submitSuccessTail st s3
                  [DBEvent.insertPrice req, DBEvent.deactivatePrice cur.price_id,
                   DBEvent.insertHistory hreq] oc

/-- The mount `useEffect` (lines 32–36): `checkUser(); fetchPrices();
fetchPriceHistory();` — all three fired unconditionally. -/
def pageMount (s : Store) (principal : Option AuthUser)
    (lookupOk pricesOk historyOk : Bool) : OpResult :=
  let r1 := checkUser initialState s principal lookupOk
  let r2 := fetchPrices r1.state s pricesOk
  let r3 := fetchPriceHistory r2.state s historyOk
  { state := r3.state, store := s,
    events := r1.events ++ r2.events ++ r3.events,
    toasts := r1.toasts ++ r2.toasts ++ r3.toasts,
    nav := r1.nav }

/-! ### Derived notions used by the claims -/

/-- Number of active `coffee_prices` rows for a coffee type. -/
def countActive (s : Store) (ct : String) : Nat :=
  (s.coffee_prices.filter (fun r => r.is_active && r.coffee_type == ct)).length

/-- The at-most-one-active invariant of the data model. -/
def atMostOneActive (s : Store) : Prop :=
  ∀ ct : String, countActive s ct ≤ 1

/-- The server's id counter is ahead of every stored price row. -/
def freshPriceIds (s : Store) : Prop :=
  ∀ r ∈ s.coffee_prices, r.price_id < s.nextPriceId

/-- A run of `handleSubmit` completed successfully (the success toast was
raised, i.e. all three writes committed). -/
def submitSucceeded (res : OpResult) : Prop :=
  res.toasts.head? = some (Toast.success "Price updated successfully")

/-- The write round trips of a trace. -/
def writeEvents (evs : List DBEvent) : List DBEvent :=
  evs.filter DBEvent.isWrite

/-- Whether a displayed history list is strictly descending in
`change_date`. -/
def strictDescB : List HistoryView → Bool
  | [] => true
  | [_] => true
  | a :: b :: t => (b.change_date < a.change_date) && strictDescB (b :: t)

/-- All five round trips succeed. -/
def ocAll : SubmitOutcome :=
  { insertOk := true, updateOk := true, historyOk := true,
    refreshPricesOk := true, refreshHistoryOk := true }

/-- The history insert fails; everything else succeeds. -/
def ocHistFail : SubmitOutcome :=
  { insertOk := true, updateOk := true, historyOk := false,
    refreshPricesOk := true, refreshHistoryOk := true }

/-! ### A concrete sequential replay used to analyse the staleness of the
`currentPrices` lookup: mount, one successful submit, one submit whose
history insert fails (leaving `currentPrices` stale), then one more
successful submit for the same coffee type. -/

/-- The one admin user of the replay. -/
def cexAdmin : UserRow :=
  { id := 7, role := "admin", first_name := "Ana", last_name := "Reyes" }

/-- Initial store of the replay: one admin, no prices, no history. -/
def cexStore0 : Store :=
  { users := [cexAdmin], coffee_prices := [], coffee_price_history := [],
    nextPriceId := 1, nextHistoryId := 1, now := 0 }

/-- State after mounting the page and typing the first price. -/
def cexState1 : ComponentState :=
  { (pageMount cexStore0 (some { id := 7 }) true true true).state with
      newPrice := { coffee_type := "raw", price_per_kg := "150", currency := "PHP" } }

/-- First submit: succeeds (first price ever for "raw"). -/
def cexRes1 : OpResult := handleSubmit cexState1 cexStore0 ocAll

/-- State after typing the second price. -/
def cexState2 : ComponentState :=
  { cexRes1.state with
      newPrice := { coffee_type := "raw", price_per_kg := "160", currency := "PHP" } }

/-- Second submit: the history insert fails, so the `catch` skips the
refresh and `currentPrices` is left stale. -/
def cexRes2 : OpResult := handleSubmit cexState2 cexRes1.store ocHistFail

/-- State after typing the third price (`currentPrices` still stale). -/
def cexState3 : ComponentState :=
  { cexRes2.state with
      newPrice := { coffee_type := "raw", price_per_kg := "170", currency := "PHP" } }

/-- Third submit: succeeds, but deactivates the wrong (stale) record. -/
def cexRes3 : OpResult := handleSubmit cexState3 cexRes2.store ocAll

/-! ### Shape lemmas for the operations -/

theorem fetchPrices_store (st : ComponentState) (s : Store) (ok : Bool) :
    (fetchPrices st s ok).store = s := by
  cases ok <;> rfl

theorem fetchPriceHistory_store (st : ComponentState) (s : Store) (ok : Bool) :
    (fetchPriceHistory st s ok).store = s := by
  cases ok <;> rfl

theorem fetchPrices_events (st : ComponentState) (s : Store) (ok : Bool) :
    (fetchPrices st s ok).events = [DBEvent.selectActivePrices] := by
  cases ok <;> rfl

theorem fetchPriceHistory_events (st : ComponentState) (s : Store) (ok : Bool) :
    (fetchPriceHistory st s ok).events = [DBEvent.selectHistory] := by
  cases ok <;> rfl

theorem fetchPrices_newPrice (st : ComponentState) (s : Store) (ok : Bool) :
    (fetchPrices st s ok).state.newPrice = st.newPrice := by
  cases ok <;> rfl

theorem fetchPriceHistory_newPrice (st : ComponentState) (s : Store) (ok : Bool) :
    (fetchPriceHistory st s ok).state.newPrice = st.newPrice := by
  cases ok <;> rfl

theorem submitSuccessTail_store (st : ComponentState) (s : Store)
    (evs : List DBEvent) (oc : SubmitOutcome) :
    (submitSuccessTail st s evs oc).store = s := rfl

theorem submitSuccessTail_events (st : ComponentState) (s : Store)
    (evs : List DBEvent) (oc : SubmitOutcome) :
    (submitSuccessTail st s evs oc).events =
      evs ++ [DBEvent.selectActivePrices, DBEvent.selectHistory] := by
  simp [submitSuccessTail, fetchPrices_events, fetchPriceHistory_events]

theorem submitSuccessTail_toasts_head (st : ComponentState) (s : Store)
    (evs : List DBEvent) (oc : SubmitOutcome) :
    (submitSuccessTail st s evs oc).toasts.head? =
      some (Toast.success "Price updated successfully") := rfl

theorem handleSubmit_none_user_eq (st : ComponentState) (s : Store)
    (oc : SubmitOutcome) (hu : st.user = none) :
    handleSubmit st s oc =
      { state := { st with loading := false }, store := s, events := [],
        toasts := [Toast.error "Failed to update price"], nav := none } := by
  simp [handleSubmit, hu]

theorem handleSubmit_noPrior_eq (st : ComponentState) (s : Store)
    (oc : SubmitOutcome) (u : UserRow) (hu : st.user = some u)
    (hfind : st.currentPrices.find?
      (fun p => p.coffee_type == st.newPrice.coffee_type) = none)
    (hins : oc.insertOk = true) :
    handleSubmit st s oc =
      submitSuccessTail st (insertPriceRow s (priceReqOf st.newPrice u.id))
        [DBEvent.insertPrice (priceReqOf st.newPrice u.id)] oc := by
  simp [handleSubmit, hu, hfind, hins]

theorem handleSubmit_prior_success_eq (st : ComponentState) (s : Store)
    (oc : SubmitOutcome) (u : UserRow) (cur : PriceView) (hu : st.user = some u)
    (hcur : st.currentPrices.find?
      (fun p => p.coffee_type == st.newPrice.coffee_type) = some cur)
    (hins : oc.insertOk = true) (hupd : oc.updateOk = true)
    (hhist : oc.historyOk = true) :
    handleSubmit st s oc =
      submitSuccessTail st
        (insertHistoryRow
          (deactivateRow (insertPriceRow s (priceReqOf st.newPrice u.id)) cur.price_id)
          (historyReqOf s.nextPriceId st.newPrice cur.price_per_kg u.id))
        [DBEvent.insertPrice (priceReqOf st.newPrice u.id),
         DBEvent.deactivatePrice cur.price_id,
         DBEvent.insertHistory
           (historyReqOf s.nextPriceId st.newPrice cur.price_per_kg u.id)] oc := by
  simp [handleSubmit, hu, hcur, hins, hupd, hhist, serverPrice]

theorem handleSubmit_insertFail_eq (st : ComponentState) (s : Store)
    (oc : SubmitOutcome) (u : UserRow) (hu : st.user = some u)
    (hins : oc.insertOk = false) :
    handleSubmit st s oc =
      { state := { st with loading := false }, store := s,
        events := [DBEvent.insertPrice (priceReqOf st.newPrice u.id)],
        toasts := [Toast.error "Failed to update price"], nav := none } := by
  simp [handleSubmit, hu, hins]

theorem handleSubmit_updateFail_eq (st : ComponentState) (s : Store)
    (oc : SubmitOutcome) (u : UserRow) (cur : PriceView) (hu : st.user = some u)
    (hcur : st.currentPrices.find?
      (fun p => p.coffee_type == st.newPrice.coffee_type) = some cur)
    (hins : oc.insertOk = true) (hupd : oc.updateOk = false) :
    handleSubmit st s oc =
      { state := { st with loading := false },
        store := insertPriceRow s (priceReqOf st.newPrice u.id),
        events := [DBEvent.insertPrice (priceReqOf st.newPrice u.id),
                   DBEvent.deactivatePrice cur.price_id],
        toasts := [Toast.error "Failed to update price"], nav := none } := by
  simp [handleSubmit, hu, hcur, hins, hupd]

theorem handleSubmit_historyFail_eq (st : ComponentState) (s : Store)
    (oc : SubmitOutcome) (u : UserRow) (cur : PriceView) (hu : st.user = some u)
    (hcur : st.currentPrices.find?
      (fun p => p.coffee_type == st.newPrice.coffee_type) = some cur)
    (hins : oc.insertOk = true) (hupd : oc.updateOk = true)
    (hhist : oc.historyOk = false) :
    handleSubmit st s oc =
      { state := { st with loading := false },
        store := deactivateRow (insertPriceRow s (priceReqOf st.newPrice u.id)) cur.price_id,
        events := [DBEvent.insertPrice (priceReqOf st.newPrice u.id),
                   DBEvent.deactivatePrice cur.price_id,
                   DBEvent.insertHistory
                     (historyReqOf s.nextPriceId st.newPrice cur.price_per_kg u.id)],
        toasts := [Toast.error "Failed to update price"], nav := none } := by
  simp [handleSubmit, hu, hcur, hins, hupd, hhist, serverPrice]

/-! ### Claim theorems -/

/-- C10: if `handleSubmit` runs while no admitted admin is stored
(`user = null`), the dereference `user.id` fails before the first insert
is issued: no round trip reaches the store, the store is unchanged, the
generic failure notice is shown, and the loading flag ends cleared. -/
theorem submit_null_user_no_writes (st : ComponentState) (s : Store)
    (oc : SubmitOutcome) (hu : st.user = none) :
    (handleSubmit st s oc).store = s
    ∧ (handleSubmit st s oc).events = []
    ∧ (handleSubmit st s oc).toasts = [Toast.error "Failed to update price"]
    ∧ (handleSubmit st s oc).state.loading = false := by
  rw [handleSubmit_none_user_eq st s oc hu]
  exact ⟨rfl, rfl, rfl, rfl⟩

theorem submit_null_user_no_writes_witness :
    (handleSubmit initialState
      { users := [], coffee_prices := [], coffee_price_history := [],
        nextPriceId := 1, nextHistoryId := 1, now := 0 }
      ocAll).events = [] :=
  (submit_null_user_no_writes initialState
    { users := [], coffee_prices := [], coffee_price_history := [],
      nextPriceId := 1, nextHistoryId := 1, now := 0 } ocAll rfl).2.1

/-- C3: when the step-1 lookup finds no prior active price for the
submitted coffee type, a successful run issues the new-price insert as its
only write: no deactivation update, no history insert, and the store's
history table is unchanged. -/
theorem submit_no_prior_only_insert (st : ComponentState) (s : Store)
    (oc : SubmitOutcome) (u : UserRow) (hu : st.user = some u)
    (hfind : st.currentPrices.find?
      (fun p => p.coffee_type == st.newPrice.coffee_type) = none)
    (hins : oc.insertOk = true) :
    (handleSubmit st s oc).events =
      [DBEvent.insertPrice (priceReqOf st.newPrice u.id),
       DBEvent.selectActivePrices, DBEvent.selectHistory]
    ∧ writeEvents (handleSubmit st s oc).events =
        [DBEvent.insertPrice (priceReqOf st.newPrice u.id)]
    ∧ (handleSubmit st s oc).store = insertPriceRow s (priceReqOf st.newPrice u.id)
    ∧ (handleSubmit st s oc).store.coffee_price_history = s.coffee_price_history := by
  rw [handleSubmit_noPrior_eq st s oc u hu hfind hins]
  refine ⟨submitSuccessTail_events .., ?_, submitSuccessTail_store .., ?_⟩
  · rw [submitSuccessTail_events]
    rfl
  · rw [submitSuccessTail_store]
    rfl

theorem submit_no_prior_only_insert_witness :
    writeEvents
      (handleSubmit
        { user := some { id := 7, role := "admin", first_name := "A", last_name := "B" },
          priceHistory := [], currentPrices := [], loading := false,
          newPrice := { coffee_type := "raw", price_per_kg := "150", currency := "PHP" } }
        { users := [], coffee_prices := [], coffee_price_history := [],
          nextPriceId := 1, nextHistoryId := 1, now := 0 }
        ocAll).events =
      [DBEvent.insertPrice
        { coffee_type := "raw", price_per_kg := "150", currency := "PHP",
          created_by := 7, is_active := true }] := by
  have h := (submit_no_prior_only_insert
    { user := some { id := 7, role := "admin", first_name := "A", last_name := "B" },
      priceHistory := [], currentPrices := [], loading := false,
      newPrice := { coffee_type := "raw", price_per_kg := "150", currency := "PHP" } }
    { users := [], coffee_prices := [], coffee_price_history := [],
      nextPriceId := 1, nextHistoryId := 1, now := 0 }
    ocAll { id := 7, role := "admin", first_name := "A", last_name := "B" }
    rfl rfl rfl).2.1
  rw [h]
  decide

/-- C2: when the step-1 lookup finds a prior entry `cur` in the loaded
active-price set, a successful run deactivates it (every stored row with
its `price_id` ends inactive, and the deactivation round trip precedes the
history insert in the trace) and appends exactly one history entry with
`old_price` the prior entry's `price_per_kg`, `new_price` the submitted
price, `changed_by` the current admin, and `reason` the literal
"Price update". -/
theorem submit_prior_creates_history (st : ComponentState) (s : Store)
    (oc : SubmitOutcome) (u : UserRow) (cur : PriceView) (hu : st.user = some u)
    (hcur : st.currentPrices.find?
      (fun p => p.coffee_type == st.newPrice.coffee_type) = some cur)
    (hins : oc.insertOk = true) (hupd : oc.updateOk = true)
    (hhist : oc.historyOk = true) :
    (handleSubmit st s oc).events =
      [DBEvent.insertPrice (priceReqOf st.newPrice u.id),
       DBEvent.deactivatePrice cur.price_id,
       DBEvent.insertHistory
         (historyReqOf s.nextPriceId st.newPrice cur.price_per_kg u.id),
       DBEvent.selectActivePrices, DBEvent.selectHistory]
    ∧ (∀ r ∈ (handleSubmit st s oc).store.coffee_prices,
        r.price_id = cur.price_id → r.is_active = false)
    ∧ (handleSubmit st s oc).store.coffee_price_history =
        s.coffee_price_history ++
          [{ history_id := s.nextHistoryId, price_id := s.nextPriceId,
             coffee_type := st.newPrice.coffee_type,
             old_price := cur.price_per_kg,
             new_price := st.newPrice.price_per_kg,
             changed_by := u.id, change_date := s.now,
             reason := "Price update" }] := by
  rw [handleSubmit_prior_success_eq st s oc u cur hu hcur hins hupd hhist]
  refine ⟨by simp [submitSuccessTail_events], ?_, ?_⟩
  · rw [submitSuccessTail_store]
    intro r hr hpid
    simp only [insertHistoryRow, deactivateRow, insertPriceRow, List.mem_map] at hr
    obtain ⟨r0, _, hr0⟩ := hr
    by_cases h : r0.price_id == cur.price_id
    · rw [← hr0]
      simp [deactivateFn, h]
    · rw [← hr0] at hpid
      simp [deactivateFn, h] at hpid
      exact absurd (beq_iff_eq.mpr hpid) (by simpa using h)
  · rw [submitSuccessTail_store]
    simp [insertHistoryRow, serverHistory, deactivateRow, insertPriceRow, historyReqOf]

theorem submit_prior_creates_history_witness :
    (handleSubmit
      { user := some { id := 7, role := "admin", first_name := "A", last_name := "B" },
        priceHistory := [],
        currentPrices := [{ price_id := 1, coffee_type := "raw", price_per_kg := "150",
                            currency := "PHP", is_active := true, created_by := 7,
                            updated_at := 0, creator := none }],
        loading := false,
        newPrice := { coffee_type := "raw", price_per_kg := "160", currency := "PHP" } }
      { users := [],
        coffee_prices := [{ price_id := 1, coffee_type := "raw", price_per_kg := "150",
                            currency := "PHP", is_active := true, created_by := 7,
                            updated_at := 0 }],
        coffee_price_history := [], nextPriceId := 2, nextHistoryId := 1, now := 5 }
      ocAll).store.coffee_price_history =
      [{ history_id := 1, price_id := 2, coffee_type := "raw", old_price := "150",
         new_price := "160", changed_by := 7, change_date := 5,
         reason := "Price update" }] := by
  have h := (submit_prior_creates_history
    { user := some { id := 7, role := "admin", first_name := "A", last_name := "B" },
      priceHistory := [],
      currentPrices := [{ price_id := 1, coffee_type := "raw", price_per_kg := "150",
                          currency := "PHP", is_active := true, created_by := 7,
                          updated_at := 0, creator := none }],
      loading := false,
      newPrice := { coffee_type := "raw", price_per_kg := "160", currency := "PHP" } }
    { users := [],
      coffee_prices := [{ price_id := 1, coffee_type := "raw", price_per_kg := "150",
                          currency := "PHP", is_active := true, created_by := 7,
                          updated_at := 0 }],
      coffee_price_history := [], nextPriceId := 2, nextHistoryId := 1, now := 5 }
    ocAll { id := 7, role := "admin", first_name := "A", last_name := "B" }
    { price_id := 1, coffee_type := "raw", price_per_kg := "150",
      currency := "PHP", is_active := true, created_by := 7,
      updated_at := 0, creator := none }
    rfl (by decide) rfl rfl rfl).2.2
  rw [h]
  decide

theorem submitSuccessTail_refresh (st : ComponentState) (s : Store)
    (evs : List DBEvent) (oc : SubmitOutcome)
    (hrp : oc.refreshPricesOk = true) (hrh : oc.refreshHistoryOk = true) :
    (submitSuccessTail st s evs oc).state.newPrice = defaultForm
    ∧ (submitSuccessTail st s evs oc).state.currentPrices = activePricesQuery s
    ∧ (submitSuccessTail st s evs oc).state.priceHistory = historyQuery s := by
  simp [submitSuccessTail, fetchPrices, fetchPriceHistory, hrp, hrh]

/-- C9: after any successful run of `handleSubmit`, the form is reset to
its defaults (`coffee_type` "raw", empty `price_per_kg`, currency "PHP"),
the success notice is shown, both refresh reads are issued, and the two
displayed lists equal a fresh read of the resulting store. -/
theorem submit_success_resets_and_refreshes (st : ComponentState) (s : Store)
    (oc : SubmitOutcome) (u : UserRow) (hu : st.user = some u)
    (hins : oc.insertOk = true) (hupd : oc.updateOk = true)
    (hhist : oc.historyOk = true) (hrp : oc.refreshPricesOk = true)
    (hrh : oc.refreshHistoryOk = true) :
    (handleSubmit st s oc).state.newPrice =
      { coffee_type := "raw", price_per_kg := "", currency := "PHP" }
    ∧ (handleSubmit st s oc).toasts.head? =
        some (Toast.success "Price updated successfully")
    ∧ DBEvent.selectActivePrices ∈ (handleSubmit st s oc).events
    ∧ DBEvent.selectHistory ∈ (handleSubmit st s oc).events
    ∧ (handleSubmit st s oc).state.currentPrices =
        activePricesQuery (handleSubmit st s oc).store
    ∧ (handleSubmit st s oc).state.priceHistory =
        historyQuery (handleSubmit st s oc).store := by
  cases hfind : st.currentPrices.find?
      (fun p => p.coffee_type == st.newPrice.coffee_type) with
  | none =>
      rw [handleSubmit_noPrior_eq st s oc u hu hfind hins]
      have h := submitSuccessTail_refresh st
        (insertPriceRow s (priceReqOf st.newPrice u.id))
        [DBEvent.insertPrice (priceReqOf st.newPrice u.id)] oc hrp hrh
      refine ⟨h.1, submitSuccessTail_toasts_head .., ?_, ?_, ?_, ?_⟩
      · simp [submitSuccessTail_events]
      · simp [submitSuccessTail_events]
      · rw [submitSuccessTail_store]; exact h.2.1
      · rw [submitSuccessTail_store]; exact h.2.2
  | some cur =>
      rw [handleSubmit_prior_success_eq st s oc u cur hu hfind hins hupd hhist]
      have h := submitSuccessTail_refresh st
        (insertHistoryRow
          (deactivateRow (insertPriceRow s (priceReqOf st.newPrice u.id)) cur.price_id)
          (historyReqOf s.nextPriceId st.newPrice cur.price_per_kg u.id))
        [DBEvent.insertPrice (priceReqOf st.newPrice u.id),
         DBEvent.deactivatePrice cur.price_id,
         DBEvent.insertHistory
           (historyReqOf s.nextPriceId st.newPrice cur.price_per_kg u.id)] oc hrp hrh
      refine ⟨h.1, submitSuccessTail_toasts_head .., ?_, ?_, ?_, ?_⟩
      · simp [submitSuccessTail_events]
      · simp [submitSuccessTail_events]
      · rw [submitSuccessTail_store]; exact h.2.1
      · rw [submitSuccessTail_store]; exact h.2.2

theorem submit_success_resets_and_refreshes_witness :
    (handleSubmit
      { user := some { id := 7, role := "admin", first_name := "A", last_name := "B" },
        priceHistory := [], currentPrices := [], loading := false,
        newPrice := { coffee_type := "dried", price_per_kg := "90", currency := "PHP" } }
      { users := [], coffee_prices := [], coffee_price_history := [],
        nextPriceId := 1, nextHistoryId := 1, now := 0 }
      ocAll).state.newPrice =
      { coffee_type := "raw", price_per_kg := "", currency := "PHP" } :=
  (submit_success_resets_and_refreshes
    { user := some { id := 7, role := "admin", first_name := "A", last_name := "B" },
      priceHistory := [], currentPrices := [], loading := false,
      newPrice := { coffee_type := "dried", price_per_kg := "90", currency := "PHP" } }
    { users := [], coffee_prices := [], coffee_price_history := [],
      nextPriceId := 1, nextHistoryId := 1, now := 0 }
    ocAll { id := 7, role := "admin", first_name := "A", last_name := "B" }
    rfl rfl rfl rfl rfl rfl).1

/-- C5: the access gate.  With no authenticated principal, `checkUser`
redirects to the login route.  With a principal whose `users` row has a
role other than "admin", it raises the authorization-denied notice and
redirects to /dashboard.  Otherwise it admits the principal by storing the
row in the `user` state. -/
theorem checkUser_gate (st : ComponentState) (s : Store) :
    (∀ ok : Bool, checkUser st s none ok =
      { state := st, store := s, events := [], toasts := [], nav := some "/login" })
    ∧ (∀ a : AuthUser, ∀ row : UserRow,
        s.users.find? (fun u => u.id == a.id) = some row → row.role ≠ "admin" →
        checkUser st s (some a) true =
          { state := st, store := s, events := [DBEvent.selectUser a.id],
            toasts := [Toast.error "Admin access required"],
            nav := some "/dashboard" })
    ∧ (∀ a : AuthUser, ∀ row : UserRow,
        s.users.find? (fun u => u.id == a.id) = some row → row.role = "admin" →
        checkUser st s (some a) true =
          { state := { st with user := some row }, store := s,
            events := [DBEvent.selectUser a.id], toasts := [], nav := none }) := by
  refine ⟨fun ok => rfl, ?_, ?_⟩
  · intro a row hfind hrole
    simp [checkUser, hfind, hrole]
  · intro a row hfind hrole
    simp [checkUser, hfind, hrole]

theorem checkUser_gate_witness :
    checkUser initialState
      { users := [{ id := 7, role := "admin", first_name := "A", last_name := "B" }],
        coffee_prices := [], coffee_price_history := [],
        nextPriceId := 1, nextHistoryId := 1, now := 0 }
      (some { id := 7 }) true =
      { state := { initialState with
          user := some { id := 7, role := "admin", first_name := "A", last_name := "B" } },
        store := { users := [{ id := 7, role := "admin", first_name := "A", last_name := "B" }],
                   coffee_prices := [], coffee_price_history := [],
                   nextPriceId := 1, nextHistoryId := 1, now := 0 },
        events := [DBEvent.selectUser 7], toasts := [], nav := none } :=
  (checkUser_gate initialState
    { users := [{ id := 7, role := "admin", first_name := "A", last_name := "B" }],
      coffee_prices := [], coffee_price_history := [],
      nextPriceId := 1, nextHistoryId := 1, now := 0 }).2.2
    { id := 7 } { id := 7, role := "admin", first_name := "A", last_name := "B" }
    (by decide) rfl

/-- C8: in every run of `handleSubmit` in which some write step fails —
the new-price insert, the deactivation update, or the history insert —
the single generic failure notice is the only toast, all remaining steps
(later writes and both refresh reads) are skipped, and the store equals
exactly the prefix of writes already committed, with nothing rolled back.
In particular, when the deactivation fails after the insert succeeded and
exactly one record for that coffee type was active before, the store is
left with two active records for it. -/
theorem submit_write_failure_behavior (st : ComponentState) (s : Store)
    (oc : SubmitOutcome) (u : UserRow) (hu : st.user = some u) :
    (oc.insertOk = false →
      handleSubmit st s oc =
        { state := { st with loading := false }, store := s,
          events := [DBEvent.insertPrice (priceReqOf st.newPrice u.id)],
          toasts := [Toast.error "Failed to update price"], nav := none })
    ∧ (∀ cur : PriceView,
        st.currentPrices.find?
          (fun p => p.coffee_type == st.newPrice.coffee_type) = some cur →
        oc.insertOk = true → oc.updateOk = false →
        handleSubmit st s oc =
          { state := { st with loading := false },
            store := insertPriceRow s (priceReqOf st.newPrice u.id),
            events := [DBEvent.insertPrice (priceReqOf st.newPrice u.id),
                       DBEvent.deactivatePrice cur.price_id],
            toasts := [Toast.error "Failed to update price"], nav := none }
        ∧ (countActive s st.newPrice.coffee_type = 1 →
            countActive (handleSubmit st s oc).store st.newPrice.coffee_type = 2))
    ∧ (∀ cur : PriceView,
        st.currentPrices.find?
          (fun p => p.coffee_type == st.newPrice.coffee_type) = some cur →
        oc.insertOk = true → oc.updateOk = true → oc.historyOk = false →
        handleSubmit st s oc =
          { state := { st with loading := false },
            store := deactivateRow
              (insertPriceRow s (priceReqOf st.newPrice u.id)) cur.price_id,
            events := [DBEvent.insertPrice (priceReqOf st.newPrice u.id),
                       DBEvent.deactivatePrice cur.price_id,
                       DBEvent.insertHistory
                         (historyReqOf s.nextPriceId st.newPrice cur.price_per_kg u.id)],
            toasts := [Toast.error "Failed to update price"], nav := none }) := by
  refine ⟨fun hins => handleSubmit_insertFail_eq st s oc u hu hins,
    fun cur hcur hins hupd =>
      ⟨handleSubmit_updateFail_eq st s oc u cur hu hcur hins hupd, fun hone => ?_⟩,
    fun cur hcur hins hupd hhist =>
      handleSubmit_historyFail_eq st s oc u cur hu hcur hins hupd hhist⟩
  rw [handleSubmit_updateFail_eq st s oc u cur hu hcur hins hupd]
  show countActive (insertPriceRow s (priceReqOf st.newPrice u.id))
    st.newPrice.coffee_type = 2
  have hstep : countActive (insertPriceRow s (priceReqOf st.newPrice u.id))
      st.newPrice.coffee_type = countActive s st.newPrice.coffee_type + 1 := by
    simp [countActive, insertPriceRow, serverPrice, priceReqOf, List.filter_append]
  rw [hstep, hone]

theorem submit_write_failure_behavior_witness :
    countActive
      (handleSubmit
        { user := some { id := 7, role := "admin", first_name := "A", last_name := "B" },
          priceHistory := [],
          currentPrices := [{ price_id := 1, coffee_type := "raw", price_per_kg := "150",
                              currency := "PHP", is_active := true, created_by := 7,
                              updated_at := 0, creator := none }],
          loading := false,
          newPrice := { coffee_type := "raw", price_per_kg := "160", currency := "PHP" } }
        { users := [],
          coffee_prices := [{ price_id := 1, coffee_type := "raw", price_per_kg := "150",
                              currency := "PHP", is_active := true, created_by := 7,
                              updated_at := 0 }],
          coffee_price_history := [], nextPriceId := 2, nextHistoryId := 1, now := 5 }
        { insertOk := true, updateOk := false, historyOk := true,
          refreshPricesOk := true, refreshHistoryOk := true }).store "raw" = 2 :=
  ((submit_write_failure_behavior
    { user := some { id := 7, role := "admin", first_name := "A", last_name := "B" },
      priceHistory := [],
      currentPrices := [{ price_id := 1, coffee_type := "raw", price_per_kg := "150",
                          currency := "PHP", is_active := true, created_by := 7,
                          updated_at := 0, creator := none }],
      loading := false,
      newPrice := { coffee_type := "raw", price_per_kg := "160", currency := "PHP" } }
    { users := [],
      coffee_prices := [{ price_id := 1, coffee_type := "raw", price_per_kg := "150",
                          currency := "PHP", is_active := true, created_by := 7,
                          updated_at := 0 }],
      coffee_price_history := [], nextPriceId := 2, nextHistoryId := 1, now := 5 }
    { insertOk := true, updateOk := false, historyOk := true,
      refreshPricesOk := true, refreshHistoryOk := true }
    { id := 7, role := "admin", first_name := "A", last_name := "B" } rfl).2.1
    { price_id := 1, coffee_type := "raw", price_per_kg := "150",
      currency := "PHP", is_active := true, created_by := 7,
      updated_at := 0, creator := none }
    (by decide) rfl rfl).2 (by decide)

theorem fetchPrices_user (st : ComponentState) (s : Store) (ok : Bool) :
    (fetchPrices st s ok).state.user = st.user := by
  cases ok <;> rfl

theorem fetchPriceHistory_user (st : ComponentState) (s : Store) (ok : Bool) :
    (fetchPriceHistory st s ok).state.user = st.user := by
  cases ok <;> rfl

/-- C7 counterexample: `fetchPrices` does not touch the loading flag at
all (only `fetchPriceHistory` has the `finally` that clears it), so a
failing `fetchPrices` on its own leaves the flag set, contradicting "the
loading flag is cleared regardless of success or failure of that
operation" for that read. -/
theorem fetchPrices_keeps_loading_cex :
    initialState.loading = true
    ∧ (fetchPrices initialState
        { users := [], coffee_prices := [], coffee_price_history := [],
          nextPriceId := 1, nextHistoryId := 1, now := 0 }
        false).state.loading = true :=
  ⟨rfl, rfl⟩

/-- C7 amended: on a read failure each fetch leaves its displayed list
unchanged and raises its failure notice; `fetchPriceHistory` clears the
loading flag regardless of outcome, while `fetchPrices` leaves the flag
exactly as it was. -/
theorem read_failure_stale_and_loading (st : ComponentState) (s : Store) :
    ((fetchPrices st s false).state.currentPrices = st.currentPrices
      ∧ (fetchPrices st s false).toasts =
          [Toast.error "Failed to fetch current prices"])
    ∧ ((fetchPriceHistory st s false).state.priceHistory = st.priceHistory
      ∧ (fetchPriceHistory st s false).toasts =
          [Toast.error "Failed to fetch price history"])
    ∧ (∀ ok : Bool, (fetchPriceHistory st s ok).state.loading = false)
    ∧ (∀ ok : Bool, (fetchPrices st s ok).state.loading = st.loading) := by
  refine ⟨⟨rfl, rfl⟩, ⟨rfl, rfl⟩, fun ok => ?_, fun ok => ?_⟩
  · cases ok <;> rfl
  · cases ok <;> rfl

/-- C6 counterexample: a non-admin principal loading the page is indeed
redirected to /dashboard, but the mount effect still issues both reads —
data IS fetched, contradicting "no data fetched". -/
theorem pageMount_nonAdmin_fetches_cex :
    (pageMount
      { users := [{ id := 7, role := "farmer", first_name := "J", last_name := "C" }],
        coffee_prices := [], coffee_price_history := [],
        nextPriceId := 1, nextHistoryId := 1, now := 0 }
      (some { id := 7 }) true true true).nav = some "/dashboard"
    ∧ DBEvent.selectActivePrices ∈
        (pageMount
          { users := [{ id := 7, role := "farmer", first_name := "J", last_name := "C" }],
            coffee_prices := [], coffee_price_history := [],
            nextPriceId := 1, nextHistoryId := 1, now := 0 }
          (some { id := 7 }) true true true).events
    ∧ DBEvent.selectHistory ∈
        (pageMount
          { users := [{ id := 7, role := "farmer", first_name := "J", last_name := "C" }],
            coffee_prices := [], coffee_price_history := [],
            nextPriceId := 1, nextHistoryId := 1, now := 0 }
          (some { id := 7 }) true true true).events := by
  refine ⟨rfl, ?_, ?_⟩ <;> decide

/-- C6 amended: a non-admin principal loading the page is redirected to
/dashboard and never admitted (`user` stays null), but the mount effect
runs `fetchPrices` and `fetchPriceHistory` unconditionally, so both reads
are still issued to the store. -/
theorem pageMount_nonAdmin_redirects_but_fetches (s : Store) (a : AuthUser)
    (row : UserRow) (pricesOk historyOk : Bool)
    (hfind : s.users.find? (fun u => u.id == a.id) = some row)
    (hrole : row.role ≠ "admin") :
    (pageMount s (some a) true pricesOk historyOk).nav = some "/dashboard"
    ∧ (pageMount s (some a) true pricesOk historyOk).state.user = none
    ∧ DBEvent.selectActivePrices ∈ (pageMount s (some a) true pricesOk historyOk).events
    ∧ DBEvent.selectHistory ∈ (pageMount s (some a) true pricesOk historyOk).events := by
  have h1 : checkUser initialState s (some a) true =
      { state := initialState, store := s, events := [DBEvent.selectUser a.id],
        toasts := [Toast.error "Admin access required"], nav := some "/dashboard" } := by
    simp [checkUser, hfind, hrole]
  unfold pageMount
  rw [h1]
  refine ⟨rfl, ?_, ?_, ?_⟩
  · rw [fetchPriceHistory_user, fetchPrices_user]
    rfl
  · simp [fetchPrices_events, fetchPriceHistory_events]
  · simp [fetchPrices_events, fetchPriceHistory_events]

theorem pageMount_nonAdmin_redirects_but_fetches_witness :
    (pageMount
      { users := [{ id := 9, role := "farmer", first_name := "J", last_name := "C" }],
        coffee_prices := [], coffee_price_history := [],
        nextPriceId := 1, nextHistoryId := 1, now := 0 }
      (some { id := 9 }) true false false).nav = some "/dashboard" :=
  (pageMount_nonAdmin_redirects_but_fetches
    { users := [{ id := 9, role := "farmer", first_name := "J", last_name := "C" }],
      coffee_prices := [], coffee_price_history := [],
      nextPriceId := 1, nextHistoryId := 1, now := 0 }
    { id := 9 } { id := 9, role := "farmer", first_name := "J", last_name := "C" }
    false false (by decide) (by decide)).1

/-- C4 counterexample: two history rows sharing a `change_date` make the
displayed list non-strictly ordered — the claim's "strictly ordered by
change_date descending" fails on such a store. -/
theorem history_not_strict_cex :
    strictDescB
      ((fetchPriceHistory initialState
        { users := [],
          coffee_prices := [],
          coffee_price_history :=
            [{ history_id := 1, price_id := 1, coffee_type := "raw",
               old_price := "150", new_price := "160", changed_by := 7,
               change_date := 5, reason := "Price update" },
             { history_id := 2, price_id := 2, coffee_type := "raw",
               old_price := "160", new_price := "170", changed_by := 7,
               change_date := 5, reason := "Price update" }],
          nextPriceId := 3, nextHistoryId := 3, now := 6 }
        true).state.priceHistory) = false := by
  decide

/-- C4 amended: `fetchPriceHistory` requests all history rows enriched
with the changer's name ordered by `change_date` descending, and displays
exactly that result; the displayed list is sorted by non-increasing
`change_date` (a permutation of all enriched rows), and it is strictly
descending whenever the stored change dates are pairwise distinct. -/
theorem history_query_sorted (st : ComponentState) (s : Store) :
    (fetchPriceHistory st s true).state.priceHistory = historyQuery s
    ∧ List.Sorted histOrd (historyQuery s)
    ∧ (historyQuery s).Perm (s.coffee_price_history.map (joinChanger s))
    ∧ (List.Pairwise (fun a b : HistoryView => a.change_date ≠ b.change_date)
        (s.coffee_price_history.map (joinChanger s)) →
       List.Pairwise (fun a b : HistoryView => b.change_date < a.change_date)
        (historyQuery s)) := by
  refine ⟨rfl, List.sorted_insertionSort histOrd _, List.perm_insertionSort histOrd _, ?_⟩
  intro hne
  have hs : List.Pairwise histOrd (historyQuery s) :=
    List.sorted_insertionSort histOrd (s.coffee_price_history.map (joinChanger s))
  have hperm := List.perm_insertionSort histOrd (s.coffee_price_history.map (joinChanger s))
  have hne' : List.Pairwise (fun a b : HistoryView => a.change_date ≠ b.change_date)
      (historyQuery s) :=
    (hperm.pairwise_iff (fun h => Ne.symm h)).mpr hne
  exact (hs.and hne').imp
    (fun hab => lt_of_le_of_ne hab.1 (fun h => hab.2 h.symm))

theorem history_query_sorted_witness :
    List.Pairwise (fun a b : HistoryView => b.change_date < a.change_date)
      (historyQuery
        { users := [],
          coffee_prices := [],
          coffee_price_history :=
            [{ history_id := 1, price_id := 1, coffee_type := "raw",
               old_price := "150", new_price := "160", changed_by := 7,
               change_date := 5, reason := "Price update" },
             { history_id := 2, price_id := 2, coffee_type := "raw",
               old_price := "160", new_price := "170", changed_by := 7,
               change_date := 9, reason := "Price update" }],
          nextPriceId := 3, nextHistoryId := 3, now := 10 }) :=
  (history_query_sorted initialState
    { users := [],
      coffee_prices := [],
      coffee_price_history :=
        [{ history_id := 1, price_id := 1, coffee_type := "raw",
           old_price := "150", new_price := "160", changed_by := 7,
           change_date := 5, reason := "Price update" },
         { history_id := 2, price_id := 2, coffee_type := "raw",
           old_price := "160", new_price := "170", changed_by := 7,
           change_date := 9, reason := "Price update" }],
      nextPriceId := 3, nextHistoryId := 3, now := 10 }).2.2.2
    (by decide)

theorem eq_of_mem_of_length_le_one {α : Type} {l : List α} (h : l.length ≤ 1)
    {a b : α} (ha : a ∈ l) (hb : b ∈ l) : a = b := by
  match l with
  | [] => cases ha
  | [x] =>
      rw [List.mem_singleton] at ha hb
      rw [ha, hb]
  | x :: y :: t =>
      exfalso
      simp only [List.length_cons] at h
      omega

theorem countActive_le_activeCount (s : Store) (ct : String) :
    countActive s ct ≤ (s.coffee_prices.filter (fun r => r.is_active)).length := by
  unfold countActive
  have hff : s.coffee_prices.filter (fun r => r.is_active && r.coffee_type == ct)
      = (s.coffee_prices.filter (fun r => r.is_active)).filter
          (fun r => r.coffee_type == ct) := by
    rw [List.filter_filter]
    congr 1
    funext r
    rw [Bool.and_comm]
  rw [hff]
  exact List.length_filter_le _ _

theorem mem_activePricesQuery_of (s : Store) (r : PriceRecord)
    (hr : r ∈ s.coffee_prices) (ha : r.is_active = true) :
    joinCreator s r ∈ activePricesQuery s := by
  unfold activePricesQuery
  rw [(List.perm_insertionSort priceOrd _).mem_iff]
  exact List.mem_map_of_mem _ (List.mem_filter.mpr ⟨hr, ha⟩)

theorem exists_of_mem_activePricesQuery (s : Store) (v : PriceView)
    (hv : v ∈ activePricesQuery s) :
    ∃ r, r ∈ s.coffee_prices ∧ r.is_active = true ∧ v = joinCreator s r := by
  unfold activePricesQuery at hv
  rw [(List.perm_insertionSort priceOrd _).mem_iff] at hv
  obtain ⟨r, hrf, hrv⟩ := List.mem_map.mp hv
  obtain ⟨hrl, hra⟩ := List.mem_filter.mp hrf
  exact ⟨r, hrl, hra, hrv.symm⟩

/-- C1 counterexample: a purely sequential single-session replay.  After a
submit whose history insert failed (leaving `currentPrices` stale but the
store satisfying the at-most-one-active invariant), the next submit for
the same coffee type completes successfully yet leaves TWO active records
for it, because the step-1 lookup reads the stale loaded set and
deactivates a record that was already inactive. -/
theorem submit_two_actives_cex :
    atMostOneActive cexRes2.store
    ∧ submitSucceeded cexRes3
    ∧ countActive cexRes3.store "raw" = 2 := by
  refine ⟨?_, by unfold submitSucceeded; decide, by decide⟩
  intro ct
  exact le_trans (countActive_le_activeCount cexRes2.store ct) (by decide)

/-- C1 amended: after any successful completion of `handleSubmit` starting
from a store satisfying the at-most-one-active invariant (with fresh
server ids), PROVIDED the loaded `currentPrices` set agrees with the
store's active rows (it is what `fetchPrices` would return), exactly one
record with the submitted coffee type is active afterwards. -/
theorem submit_unique_active (st : ComponentState) (s : Store)
    (oc : SubmitOutcome) (u : UserRow) (hu : st.user = some u)
    (hsync : st.currentPrices = activePricesQuery s)
    (hinv : atMostOneActive s)
    (hfresh : freshPriceIds s)
    (hins : oc.insertOk = true) (hupd : oc.updateOk = true)
    (hhist : oc.historyOk = true) :
    countActive (handleSubmit st s oc).store st.newPrice.coffee_type = 1 := by
  cases hfind : st.currentPrices.find?
      (fun p => p.coffee_type == st.newPrice.coffee_type) with
  | none =>
      rw [handleSubmit_noPrior_eq st s oc u hu hfind hins, submitSuccessTail_store]
      have hzero : countActive s st.newPrice.coffee_type = 0 := by
        unfold countActive
        rw [List.length_eq_zero, List.filter_eq_nil_iff]
        intro r hr hcontra
        rw [Bool.and_eq_true] at hcontra
        have hmem := mem_activePricesQuery_of s r hr hcontra.1
        rw [← hsync] at hmem
        have hnone := List.find?_eq_none.mp hfind _ hmem
        exact hnone hcontra.2
      have hstep : countActive (insertPriceRow s (priceReqOf st.newPrice u.id))
          st.newPrice.coffee_type = countActive s st.newPrice.coffee_type + 1 := by
        simp [countActive, insertPriceRow, serverPrice, priceReqOf, List.filter_append]
      rw [hstep, hzero]
  | some cur =>
      rw [handleSubmit_prior_success_eq st s oc u cur hu hfind hins hupd hhist,
        submitSuccessTail_store]
      have hcur_mem : cur ∈ st.currentPrices := List.mem_of_find?_eq_some hfind
      have hcur_ct0 := List.find?_some hfind
      have hcur_ct : (cur.coffee_type == st.newPrice.coffee_type) = true := hcur_ct0
      rw [hsync] at hcur_mem
      obtain ⟨r0, hr0l, hr0a, hr0eq⟩ := exists_of_mem_activePricesQuery s cur hcur_mem
      have hpid : cur.price_id = r0.price_id := by rw [hr0eq]; rfl
      have hct0 : (r0.coffee_type == st.newPrice.coffee_type) = true := by
        have hc : cur.coffee_type = r0.coffee_type := by rw [hr0eq]; rfl
        rw [← hc]
        exact hcur_ct
      have hne : r0.price_id ≠ s.nextPriceId := Nat.ne_of_lt (hfresh r0 hr0l)
      have huniq : ∀ r ∈ s.coffee_prices, r.is_active = true →
          (r.coffee_type == st.newPrice.coffee_type) = true → r = r0 := by
        intro r hrl hra hrct
        have h1 : r ∈ s.coffee_prices.filter
            (fun x => x.is_active && x.coffee_type == st.newPrice.coffee_type) :=
          List.mem_filter.mpr ⟨hrl, by rw [Bool.and_eq_true]; exact ⟨hra, hrct⟩⟩
        have h0 : r0 ∈ s.coffee_prices.filter
            (fun x => x.is_active && x.coffee_type == st.newPrice.coffee_type) :=
          List.mem_filter.mpr ⟨hr0l, by rw [Bool.and_eq_true]; exact ⟨hr0a, hct0⟩⟩
        exact eq_of_mem_of_length_le_one (hinv st.newPrice.coffee_type) h1 h0
      unfold countActive
      have hcp : (insertHistoryRow
          (deactivateRow (insertPriceRow s (priceReqOf st.newPrice u.id)) cur.price_id)
          (historyReqOf s.nextPriceId st.newPrice cur.price_per_kg u.id)).coffee_prices
          = (s.coffee_prices.map (deactivateFn cur.price_id))
            ++ [deactivateFn cur.price_id (serverPrice s (priceReqOf st.newPrice u.id))] := by
        simp [insertHistoryRow, deactivateRow, insertPriceRow]
      rw [hcp, List.filter_append, List.length_append]
      have hfil1 : (s.coffee_prices.map (deactivateFn cur.price_id)).filter
          (fun r => r.is_active && r.coffee_type == st.newPrice.coffee_type) = [] := by
        rw [List.filter_eq_nil_iff]
        intro x hx
        obtain ⟨r, hrl, hrx⟩ := List.mem_map.mp hx
        by_cases hb : (r.price_id == cur.price_id) = true
        · rw [← hrx]
          simp [deactivateFn, hb]
        · rw [← hrx]
          have hfr : deactivateFn cur.price_id r = r := by
            simp [deactivateFn, Bool.not_eq_true _ ▸ hb]
          rw [hfr]
          intro hcontra
          rw [Bool.and_eq_true] at hcontra
          have heq := huniq r hrl hcontra.1 hcontra.2
          apply hb
          rw [heq, ← hpid]
          exact beq_self_eq_true cur.price_id
      have hfil2 : (List.filter
          (fun r => r.is_active && r.coffee_type == st.newPrice.coffee_type)
          [deactivateFn cur.price_id (serverPrice s (priceReqOf st.newPrice u.id))]).length
          = 1 := by
        have hspid : s.nextPriceId ≠ cur.price_id := by
          rw [hpid]
          exact fun h => hne h.symm
        simp [deactivateFn, serverPrice, priceReqOf, hspid]
      rw [hfil1, hfil2]
      rfl

theorem submit_unique_active_witness :
    countActive
      (handleSubmit
        { user := some { id := 7, role := "admin", first_name := "A", last_name := "B" },
          priceHistory := [],
          currentPrices := activePricesQuery
            { users := [],
              coffee_prices := [{ price_id := 1, coffee_type := "raw",
                                  price_per_kg := "150", currency := "PHP",
                                  is_active := true, created_by := 7, updated_at := 0 }],
              coffee_price_history := [], nextPriceId := 2, nextHistoryId := 1, now := 5 },
          loading := false,
          newPrice := { coffee_type := "raw", price_per_kg := "160", currency := "PHP" } }
        { users := [],
          coffee_prices := [{ price_id := 1, coffee_type := "raw", price_per_kg := "150",
                              currency := "PHP", is_active := true, created_by := 7,
                              updated_at := 0 }],
          coffee_price_history := [], nextPriceId := 2, nextHistoryId := 1, now := 5 }
        ocAll).store "raw" = 1 :=
  submit_unique_active
    { user := some { id := 7, role := "admin", first_name := "A", last_name := "B" },
      priceHistory := [],
      currentPrices := activePricesQuery
        { users := [],
          coffee_prices := [{ price_id := 1, coffee_type := "raw",
                              price_per_kg := "150", currency := "PHP",
                              is_active := true, created_by := 7, updated_at := 0 }],
          coffee_price_history := [], nextPriceId := 2, nextHistoryId := 1, now := 5 },
      loading := false,
      newPrice := { coffee_type := "raw", price_per_kg := "160", currency := "PHP" } }
    { users := [],
      coffee_prices := [{ price_id := 1, coffee_type := "raw", price_per_kg := "150",
                          currency := "PHP", is_active := true, created_by := 7,
                          updated_at := 0 }],
      coffee_price_history := [], nextPriceId := 2, nextHistoryId := 1, now := 5 }
    ocAll { id := 7, role := "admin", first_name := "A", last_name := "B" }
    rfl rfl
    (fun ct => le_trans (countActive_le_activeCount _ ct) (by decide))
    (by
      intro r hr
      simp only [List.mem_singleton] at hr
      rw [hr]
      decide)
    rfl rfl rfl

end PriceManagement
